import Mathlib

/-!
BabyBoard UART driver (`src/BabyBoard/uart.c`).

A shallow embedding of the driver's six functions over a register file of
8-bit memory-mapped registers, together with the properties of the driver's
specification that can be settled on it.

The C statements of the driver are of three shapes (`R |= k`, `R &= ~k`,
`R = v`); each is one read-modify-write or one write of an 8-bit register.
A function body is the list of its statements in program order and running a
body folds the statements over the machine state.  The state also records
every register write, oldest first, so that the order of the writes and the
bytes loaded into the transmit buffer can be spoken about.
-/

namespace BabyBoard

/-- Memory-mapped 8-bit registers of the device: the USCI_A0 registers, the
interrupt enable and flag registers, the port registers that hold the
direction, output and function-select state of the pins, and every other
location. -/
inductive Reg where
  | UCA0CTL0
  | UCA0CTL1
  | UCA0BR0
  | UCA0BR1
  | UCA0MCTL
  | UCA0STAT
  | UCA0RXBUF
  | UCA0TXBUF
  | IE2
  | IFG2
  | PxOUT (port : Nat)
  | PxDIR (port : Nat)
  | PxSEL (port : Nat)
  | PxSEL2 (port : Nat)
  | other (addr : Nat)
  deriving DecidableEq

/-- Bit masks that `uart.c` takes from the device header `msp430g2553.h`.
The header is not among the sources, so the driver is embedded over an
arbitrary assignment of these masks. -/
structure Header where
  UCSWRST : Nat
  UCSSEL_2 : Nat
  UC7BIT : Nat
  UCPEN : Nat
  UCMSB : Nat
  UCSPB : Nat
  UCA0RXIE : Nat
  UCA0TXIE : Nat
  UCA0RXIFG : Nat

/-- The values the MSP430G2553 device header gives to the masks: in
`UCA0CTL1` the software reset is bit 0 and `UCSSEL_2` is bit 7 of the two-bit
clock select field (bits 7..6); in `UCA0CTL0` parity enable is bit 7, MSB
first bit 5, 7-bit data bit 4 and two stop bits bit 3; in `IE2` and `IFG2`
the receive bit is bit 0 and the transmit bit is bit 1. -/
def msp430g2553 : Header where
  UCSWRST := 0x01
  UCSSEL_2 := 0x80
  UC7BIT := 0x10
  UCPEN := 0x80
  UCMSB := 0x20
  UCSPB := 0x08
  UCA0RXIE := 0x01
  UCA0TXIE := 0x02
  UCA0RXIFG := 0x01

/-- Machine state: the content of every register and the register writes
performed so far, oldest first. -/
structure Machine where
  reg : Reg → Nat
  writes : List (Reg × Nat)

/-- One C statement on a register. -/
inductive Stmt where
  | orAssign (r : Reg) (k : Nat)
  | andNotAssign (r : Reg) (k : Nat)
  | assign (r : Reg) (v : Nat)

/-- Writing a value to an 8-bit register keeps its low eight bits. -/
def store (r : Reg) (v : Nat) (m : Machine) : Machine where
  reg := fun x => if x = r then v % 256 else m.reg x
  writes := m.writes ++ [(r, v % 256)]

/-- Bitwise complement of a mask after promotion to the 16-bit `int`. -/
def compl16 (k : Nat) : Nat := 0xFFFF ^^^ k

/-- Effect of one statement: `r |= k`, `r &= ~k`, `r = v`. -/
def Stmt.exec : Stmt → Machine → Machine
  | .orAssign r k, m => store r (m.reg r ||| k) m
  | .andNotAssign r k, m => store r (m.reg r &&& compl16 k) m
  | .assign r v, m => store r v m

/-- Run the statements of a body in program order. -/
def run (body : List Stmt) (m : Machine) : Machine :=
  body.foldl (fun s st => st.exec s) m

/-- The machine states reached after each statement of a body, in order. -/
def trace : List Stmt → Machine → List Machine
  | [], _ => []
  | st :: rest, m => st.exec m :: trace rest (st.exec m)

/-- Body of `set_clock`: empty in the source. -/
def set_clock_body (_speed : Int) : List Stmt := []

/-- Function `set_clock(int speed)`. -/
def set_clock (speed : Int) (m : Machine) : Machine := run (set_clock_body speed) m

/-- Body of `init_uart(char baud)`, statement by statement (lines 33-51). -/
def init_uart_body (h : Header) (baud : Nat) : List Stmt :=
  [ .orAssign .UCA0CTL1 h.UCSWRST,
    .orAssign .UCA0CTL1 h.UCSSEL_2,
    .andNotAssign .UCA0CTL0 h.UC7BIT,
    .assign .UCA0BR0 baud,
    .assign .UCA0BR1 0x00,
    .andNotAssign .UCA0CTL1 h.UCSWRST ]

/-- Function `init_uart(char baud)`; it returns `void`.  The argument is the
byte pattern of the `char`. -/
def init_uart (h : Header) (baud : Nat) (m : Machine) : Machine :=
  run (init_uart_body h baud) m

/-- Body of `uninit_uart`: empty in the source. -/
def uninit_uart_body : List Stmt := []

/-- Function `uninit_uart()`. -/
def uninit_uart (m : Machine) : Machine := run uninit_uart_body m

/-- Body of `putch`: empty in the source. -/
def putch_body (_c : Nat) : List Stmt := []

/-- Function `putch(unsigned char c)`. -/
def putch (c : Nat) (m : Machine) : Machine := run (putch_body c) m

/-- Body of `put_str`: empty in the source.  The argument is the content of
the array the pointer refers to. -/
def put_str_body (_c : List Nat) : List Stmt := []

/-- Function `put_str(unsigned char* c)`. -/
def put_str (c : List Nat) (m : Machine) : Machine := run (put_str_body c) m

/-- Body of `uart_rx`: empty in the source. -/
def uart_rx_body (_block : Nat) : List Stmt := []

/-- Function `uart_rx(char block)`: the body has no `return` statement, so
control reaches the closing brace and no value is returned (`none`). -/
def uart_rx (block : Nat) (m : Machine) : Option Int × Machine :=
  (none, run (uart_rx_body block) m)

/-- The 16-bit baud-rate divisor held in `UCA0BR0` (low) and `UCA0BR1` (high). -/
def divisor (m : Machine) : Nat := m.reg .UCA0BR0 + 256 * m.reg .UCA0BR1

/-- Bytes loaded into the transmit buffer so far, oldest first. -/
def transmitted (m : Machine) : List Nat :=
  (m.writes.filter (fun w => decide (w.1 = Reg.UCA0TXBUF))).map Prod.snd

/-- A machine with every register reading `z` and no write recorded. -/
def blank (z : Nat) : Machine where
  reg := fun _ => z
  writes := []

/-- Put a value in a register without recording a write (used to build the
states at which the driver is evaluated). -/
def setReg (r : Reg) (v : Nat) (m : Machine) : Machine where
  reg := fun x => if x = r then v else m.reg x
  writes := m.writes

/-- Modelled from the spec: the hardware's Empty to Fresh transition of the
receive latch, which the driver does not contain.  Completing the reception
of byte `b` puts it in the receive buffer and raises the receive flag. -/
def hw_receive (h : Header) (b : Nat) (m : Machine) : Machine :=
  setReg .IFG2 (m.reg .IFG2 ||| h.UCA0RXIFG) (setReg .UCA0RXBUF (b % 256) m)

/-- Content of `UCA0CTL1` after the first statement of `init_uart`, from its
content `c` before the call. -/
def ctl1_set (c : Nat) : Nat := (c ||| msp430g2553.UCSWRST) % 256

/-- Content of `UCA0CTL1` after the second statement of `init_uart`. -/
def ctl1_clk (c : Nat) : Nat := (ctl1_set c ||| msp430g2553.UCSSEL_2) % 256

/-- Content of `UCA0CTL1` after the last statement of `init_uart`. -/
def ctl1_rel (c : Nat) : Nat := (ctl1_clk c &&& compl16 msp430g2553.UCSWRST) % 256

/-! Arithmetic of 8-bit register contents. -/

theorem or_mod_256 (a b : Nat) : (a ||| b) % 256 = (a % 256) ||| (b % 256) := by
  apply Nat.eq_of_testBit_eq
  intro i
  have h : (256 : Nat) = 2 ^ 8 := by norm_num
  rw [h]
  simp only [Nat.testBit_mod_two_pow, Nat.testBit_or]
  cases decide (i < 8) <;> simp

theorem and_mod_256 (a b : Nat) : (a &&& b) % 256 = (a % 256) &&& (b % 256) := by
  apply Nat.eq_of_testBit_eq
  intro i
  have h : (256 : Nat) = 2 ^ 8 := by norm_num
  rw [h]
  simp only [Nat.testBit_mod_two_pow, Nat.testBit_and]
  cases decide (i < 8) <;> simp

theorem and_low (c k : Nat) (hk : k < 256) : c &&& k = (c % 256) &&& k := by
  have h1 : c &&& k < 256 := lt_of_le_of_lt Nat.and_le_right hk
  calc c &&& k = (c &&& k) % 256 := (Nat.mod_eq_of_lt h1).symm
    _ = (c % 256) &&& (k % 256) := and_mod_256 c k
    _ = (c % 256) &&& k := by rw [Nat.mod_eq_of_lt hk]

theorem ctl1_set_mod (c : Nat) : ctl1_set c = ctl1_set (c % 256) := by
  unfold ctl1_set
  rw [or_mod_256 c, or_mod_256 (c % 256), Nat.mod_mod]

theorem ctl1_clk_mod (c : Nat) : ctl1_clk c = ctl1_clk (c % 256) := by
  unfold ctl1_clk
  rw [ctl1_set_mod]

theorem ctl1_rel_mod (c : Nat) : ctl1_rel c = ctl1_rel (c % 256) := by
  unfold ctl1_rel
  rw [ctl1_clk_mod]

set_option maxRecDepth 100000 in
/-- The facts about `UCA0CTL1` that the driver's properties rest on, checked
for each of the 256 contents the register can have before the call. -/
theorem ctl1_bytes : ∀ x, x < 256 →
    ctl1_set x &&& 0x01 = 0x01 ∧ ctl1_clk x &&& 0x01 = 0x01 ∧ ctl1_rel x &&& 0x01 = 0 ∧
    ctl1_rel x &&& 0x80 = 0x80 ∧ ctl1_rel x &&& 0x7E = x &&& 0x7E ∧
    (ctl1_rel x >>> 6 = 2 ∨ ctl1_rel x >>> 6 = 3) := by
  decide

/-- The same facts for an arbitrary content of the register before the call. -/
theorem ctl1_facts (c : Nat) :
    ctl1_set c &&& 0x01 = 0x01 ∧ ctl1_clk c &&& 0x01 = 0x01 ∧ ctl1_rel c &&& 0x01 = 0 ∧
    ctl1_rel c &&& 0x80 = 0x80 ∧ ctl1_rel c &&& 0x7E = c &&& 0x7E ∧
    (ctl1_rel c >>> 6 = 2 ∨ ctl1_rel c >>> 6 = 3) := by
  have hb := ctl1_bytes (c % 256) (Nat.mod_lt c (by norm_num))
  rw [ctl1_set_mod c, ctl1_clk_mod c, ctl1_rel_mod c, and_low c 0x7E (by norm_num)]
  exact hb

/-! What `init_uart` leaves in the registers. -/

theorem init_uart_ctl1 (baud : Nat) (m : Machine) :
    (init_uart msp430g2553 baud m).reg .UCA0CTL1 = ctl1_rel (m.reg .UCA0CTL1) := rfl

theorem init_uart_targets (h : Header) (baud : Nat) (m : Machine) :
    (init_uart h baud m).writes.map Prod.fst =
      m.writes.map Prod.fst ++
        [Reg.UCA0CTL1, Reg.UCA0CTL1, Reg.UCA0CTL0, Reg.UCA0BR0, Reg.UCA0BR1, Reg.UCA0CTL1] := by
  simp [init_uart, run, init_uart_body, Stmt.exec, store]

theorem init_uart_releases (baud : Nat) (m : Machine) :
    (init_uart msp430g2553 baud m).reg .UCA0CTL1 &&& msp430g2553.UCSWRST = 0 := by
  rw [init_uart_ctl1]
  exact (ctl1_facts (m.reg .UCA0CTL1)).2.2.1

theorem init_uart_br0 (h : Header) (baud : Nat) (m : Machine) :
    (init_uart h baud m).reg .UCA0BR0 = baud % 256 := rfl

theorem init_uart_br1 (h : Header) (baud : Nat) (m : Machine) :
    (init_uart h baud m).reg .UCA0BR1 = 0 := rfl

/-! Properties of the driver. -/

/-- C1: for every register state and every baud argument, `init_uart` writes
`UCA0CTL1`, `UCA0CTL1`, `UCA0CTL0`, `UCA0BR0`, `UCA0BR1`, `UCA0CTL1` in this
order; `UCSWRST` is set right after the first write and after each of the
next four, it is cleared by the last write, and the state after the last
write is the state in which `init_uart` returns, with `UCSWRST` clear. -/
theorem init_uart_reset_hold_sequence (baud : Nat) (m : Machine) :
    (init_uart msp430g2553 baud m).writes.map Prod.fst =
        m.writes.map Prod.fst ++
          [Reg.UCA0CTL1, Reg.UCA0CTL1, Reg.UCA0CTL0, Reg.UCA0BR0, Reg.UCA0BR1, Reg.UCA0CTL1] ∧
    (trace (init_uart_body msp430g2553 baud) m).map
        (fun s => s.reg .UCA0CTL1 &&& msp430g2553.UCSWRST) =
      [msp430g2553.UCSWRST, msp430g2553.UCSWRST, msp430g2553.UCSWRST,
       msp430g2553.UCSWRST, msp430g2553.UCSWRST, 0] ∧
    (trace (init_uart_body msp430g2553 baud) m).getLast? =
      some (init_uart msp430g2553 baud m) ∧
    (init_uart msp430g2553 baud m).reg .UCA0CTL1 &&& msp430g2553.UCSWRST = 0 := by
  refine ⟨init_uart_targets _ baud m, ?_, rfl, init_uart_releases baud m⟩
  obtain ⟨h1, h2, h3, -⟩ := ctl1_facts (m.reg .UCA0CTL1)
  have ht : (trace (init_uart_body msp430g2553 baud) m).map
        (fun s => s.reg .UCA0CTL1 &&& msp430g2553.UCSWRST) =
      [ctl1_set (m.reg .UCA0CTL1) &&& 0x01, ctl1_clk (m.reg .UCA0CTL1) &&& 0x01,
       ctl1_clk (m.reg .UCA0CTL1) &&& 0x01, ctl1_clk (m.reg .UCA0CTL1) &&& 0x01,
       ctl1_clk (m.reg .UCA0CTL1) &&& 0x01, ctl1_rel (m.reg .UCA0CTL1) &&& 0x01] := rfl
  rw [ht, h1, h2, h3]
  rfl

/-- The divisor `init_uart` programs is the low byte of its argument, with
`UCA0BR1` zero, for every header, argument and register state. -/
theorem init_uart_divisor (h : Header) (baud : Nat) (m : Machine) :
    divisor (init_uart h baud m) = baud % 256 ∧ (init_uart h baud m).reg .UCA0BR1 = 0 := by
  refine ⟨?_, rfl⟩
  unfold divisor
  rw [init_uart_br0, init_uart_br1, Nat.mul_zero, Nat.add_zero]

/-- C3 (as stated, refuted): called with the argument 0xFF while the
peripheral is held in reset, `init_uart` returns with `UCSWRST` clear. -/
theorem init_uart_releases_at_0xFF :
    (setReg .UCA0CTL1 0x01 (blank 0)).reg .UCA0CTL1 &&& msp430g2553.UCSWRST = 0x01 ∧
    (init_uart msp430g2553 0xFF (setReg .UCA0CTL1 0x01 (blank 0))).reg .UCA0CTL1
      &&& msp430g2553.UCSWRST = 0 := by
  decide

/-- C3 (amended): for every baud argument, whether a supported selector or
not, `init_uart` performs all of its six writes and returns with the software
reset released: `UCSWRST` is clear. -/
theorem init_uart_always_releases_reset (baud : Nat) (m : Machine) :
    (init_uart msp430g2553 baud m).writes.length = m.writes.length + 6 ∧
    (init_uart msp430g2553 baud m).reg .UCA0CTL1 &&& msp430g2553.UCSWRST = 0 := by
  refine ⟨?_, init_uart_releases baud m⟩
  have hl := congrArg List.length (init_uart_targets msp430g2553 baud m)
  simpa using hl

/-- C4 (the code at the failing input): when `UCA0CTL0` holds 0xB8 before the
call (parity enabled, MSB first, 7-bit data, two stop bits), `init_uart`
clears `UC7BIT` only: `UCPEN`, `UCMSB` and `UCSPB` are still set on return. -/
theorem init_uart_keeps_parity_order_stop_bits (baud : Nat) :
    (init_uart msp430g2553 baud (setReg .UCA0CTL0 0xB8 (blank 0))).reg .UCA0CTL0 = 0xA8 ∧
    0xA8 &&& msp430g2553.UC7BIT = 0 ∧
    0xA8 &&& msp430g2553.UCPEN = msp430g2553.UCPEN ∧
    0xA8 &&& msp430g2553.UCMSB = msp430g2553.UCMSB ∧
    0xA8 &&& msp430g2553.UCSPB = msp430g2553.UCSPB := by
  refine ⟨rfl, ?_, ?_, ?_, ?_⟩ <;> decide

/-- C5: for every header, register state and baud argument, `init_uart` leaves
every register other than `UCA0CTL0`, `UCA0CTL1`, `UCA0BR0` and `UCA0BR1` as
it was, and each write it performs goes to one of these four. -/
theorem init_uart_frame (h : Header) (baud : Nat) (m : Machine) (r : Reg)
    (h0 : r ≠ .UCA0CTL0) (h1 : r ≠ .UCA0CTL1) (h2 : r ≠ .UCA0BR0) (h3 : r ≠ .UCA0BR1) :
    (init_uart h baud m).reg r = m.reg r ∧
    ∀ w ∈ (init_uart h baud m).writes.drop m.writes.length,
      w.1 = .UCA0CTL0 ∨ w.1 = .UCA0CTL1 ∨ w.1 = .UCA0BR0 ∨ w.1 = .UCA0BR1 := by
  constructor
  · simp [init_uart, run, init_uart_body, Stmt.exec, store, h0, h1, h2, h3]
  · intro w hw
    simp [init_uart, run, init_uart_body, Stmt.exec, store] at hw
    rcases hw with hw | hw | hw | hw | hw | hw <;> simp [hw]

/-- C5 at the direction register of port 1 with all pins driven as outputs. -/
theorem init_uart_frame_witness :
    (init_uart msp430g2553 104 (blank 0xFF)).reg (.PxDIR 1) = (blank 0xFF).reg (.PxDIR 1) ∧
    ∀ w ∈ (init_uart msp430g2553 104 (blank 0xFF)).writes.drop (blank 0xFF).writes.length,
      w.1 = .UCA0CTL0 ∨ w.1 = .UCA0CTL1 ∨ w.1 = .UCA0BR0 ∨ w.1 = .UCA0BR1 :=
  init_uart_frame msp430g2553 104 (blank 0xFF) (.PxDIR 1)
    (by decide) (by decide) (by decide) (by decide)

/-- C6 (the code at every input): after the hardware has received byte `b`,
a call of `uart_rx` returns no value, whatever `block` is, and leaves the
receive buffer and the receive flag as they were; a second call does the
same. -/
theorem uart_rx_returns_no_value (block b : Nat) (m : Machine) :
    uart_rx block (hw_receive msp430g2553 b m) = (none, hw_receive msp430g2553 b m) ∧
    uart_rx block (uart_rx block (hw_receive msp430g2553 b m)).2 =
      (none, hw_receive msp430g2553 b m) :=
  ⟨rfl, rfl⟩

/-- C7 (the code at every input): `put_str` loads no byte into the transmit
buffer; for the array 'h', 'i', 0 on a machine that has transmitted nothing,
nothing is transmitted. -/
theorem put_str_transmits_nothing (c : List Nat) (m : Machine) :
    transmitted (put_str c m) = transmitted m ∧
    transmitted (put_str [0x68, 0x69, 0] (blank 0)) = [] :=
  ⟨rfl, rfl⟩

/-- C8 (the code at every input): `putch` loads no byte into the transmit
buffer, and neither does any number of calls one after the other. -/
theorem putch_transmits_nothing (cs : List Nat) (m : Machine) :
    transmitted (cs.foldl (fun s c => putch c s) m) = transmitted m ∧
    transmitted (putch 0x61 (blank 0)) = [] := by
  refine ⟨?_, rfl⟩
  induction cs generalizing m with
  | nil => rfl
  | cons c rest ih => exact ih (putch c m)

/-- C9 (the code at every input): `uninit_uart` changes nothing; called after
`init_uart` it leaves `UCSWRST` clear, and interrupt enables that were set
stay set. -/
theorem uninit_uart_changes_nothing (baud : Nat) (m : Machine) :
    uninit_uart m = m ∧
    (uninit_uart (init_uart msp430g2553 baud m)).reg .UCA0CTL1 &&& msp430g2553.UCSWRST = 0 ∧
    (uninit_uart (init_uart msp430g2553 baud (setReg .IE2 0x03 m))).reg .IE2 = 0x03 :=
  ⟨rfl, init_uart_releases baud m, rfl⟩

/-- C10: for every content of `UCA0CTL1` and every baud argument, after
`init_uart` bit 7 of `UCA0CTL1` is set, so the clock select field (bits 7..6)
reads 10b or 11b, and the bits other than `UCSWRST` and bit 7 (mask 0x7E)
have the values they had before the call. -/
theorem init_uart_selects_smclk (baud : Nat) (m : Machine) :
    (init_uart msp430g2553 baud m).reg .UCA0CTL1 &&& msp430g2553.UCSSEL_2 =
      msp430g2553.UCSSEL_2 ∧
    ((init_uart msp430g2553 baud m).reg .UCA0CTL1 >>> 6 = 2 ∨
      (init_uart msp430g2553 baud m).reg .UCA0CTL1 >>> 6 = 3) ∧
    (init_uart msp430g2553 baud m).reg .UCA0CTL1 &&&
        (0xFF ^^^ (msp430g2553.UCSWRST ||| msp430g2553.UCSSEL_2)) =
      m.reg .UCA0CTL1 &&& (0xFF ^^^ (msp430g2553.UCSWRST ||| msp430g2553.UCSSEL_2)) := by
  rw [init_uart_ctl1]
  obtain ⟨-, -, -, h4, h5, h6⟩ := ctl1_facts (m.reg .UCA0CTL1)
  exact ⟨h4, h6, h5⟩

end BabyBoard
